import Mathlib

/-!
Verification of `trunk/twitchcore/include/twitchcore/types/coretypes.h`
from the `slinh/bunnytest` repository.

The header declares two type aliases and two preprocessor macros:

  #if TTV_PLATFORM_MAC
  #  define TTVSDK_API __attribute__((visibility("default")))
  #else
  #  define TTVSDK_API
  #endif

  typedef char utf8char;
  typedef unsigned int uint;

  #define UNUSED(x) (void)x;

We embed these shallowly:

* C integer types are modelled by `CIntType` (a size in bytes plus a
  signedness flag).  Bit patterns are `Nat` values below `2 ^ bitWidth`;
  `ofPattern` interprets a pattern as the represented integer value
  (twos complement for signed types) and `toPattern` stores a value.
  The implementation-defined signedness of plain `char` and the
  platform-dependent size of `unsigned int` are explicit parameters.

* The macros are modelled both at the token level (`TTVSDK_API` and
  `UNUSED_expand` map to the token lists the preprocessor would emit)
  and semantically (`UNUSED` acts on expressions viewed as state
  transformers, `UNUSEDf` on possibly-failing expressions, and the
  export attribute acts on compiled declarations via `compileDecl`).

* Unused-variable diagnostics are modelled by `unusedWarnings` over a
  miniature translation-unit syntax in which the expansion of
  `UNUSED(x)` is the statement `(void)x;`, which mentions `x`.
-/

/-! ## C integer types -/

/-- Bits per byte on all targets supported by the SDK. -/
def CHAR_BIT : Nat := 8

/-- A C integral type: its size in bytes and whether it is signed. -/
structure CIntType where
  sizeBytes : Nat
  isSigned : Bool
deriving DecidableEq, Repr

/-- Width of the type in bits. -/
def CIntType.bitWidth (t : CIntType) : Nat := CHAR_BIT * t.sizeBytes

/-- Smallest representable value (twos complement for signed types). -/
def CIntType.valueMin (t : CIntType) : Int :=
  if t.isSigned then -((2 ^ (t.bitWidth - 1) : Nat) : Int) else 0

/-- Largest representable value. -/
def CIntType.valueMax (t : CIntType) : Int :=
  if t.isSigned then ((2 ^ (t.bitWidth - 1) : Nat) : Int) - 1
  else ((2 ^ t.bitWidth : Nat) : Int) - 1

/-- `v` is a value of type `t`. -/
def CIntType.inRange (t : CIntType) (v : Int) : Prop :=
  t.valueMin ≤ v ∧ v ≤ t.valueMax

instance (t : CIntType) (v : Int) : Decidable (t.inRange v) :=
  inferInstanceAs (Decidable (_ ∧ _))

/-- The integer value represented by the bit pattern `p` in type `t`
(twos complement reading for signed types). -/
def CIntType.ofPattern (t : CIntType) (p : Nat) : Int :=
  if t.isSigned ∧ 2 ^ (t.bitWidth - 1) ≤ p % 2 ^ t.bitWidth
  then ((p % 2 ^ t.bitWidth : Nat) : Int) - ((2 ^ t.bitWidth : Nat) : Int)
  else ((p % 2 ^ t.bitWidth : Nat) : Int)

/-- The bit pattern storing the value `v` in type `t`. -/
def CIntType.toPattern (t : CIntType) (v : Int) : Nat :=
  (v % ((2 ^ t.bitWidth : Nat) : Int)).toNat

/-- Plain `char`: one byte; its signedness is implementation defined,
so it is a parameter of the model. -/
def char_t (charIsSigned : Bool) : CIntType :=
  { sizeBytes := 1, isSigned := charIsSigned }

/-- `typedef char utf8char;` — the UTF-8 byte alias is plain `char`. -/
def utf8char (charIsSigned : Bool) : CIntType := char_t charIsSigned

/-- `unsigned int`: platform-native unsigned word; its size in bytes is
a parameter of the model. -/
def unsigned_int_t (sizeofInt : Nat) : CIntType :=
  { sizeBytes := sizeofInt, isSigned := false }

/-- `typedef unsigned int uint;` — the unsigned word alias. -/
def uint (sizeofInt : Nat) : CIntType := unsigned_int_t sizeofInt

/-! ## C unsigned arithmetic on the `uint` alias

ISO C defines arithmetic on unsigned types to be reduced modulo
`2 ^ bitWidth`; these are the induced operations on bit patterns of the
`uint` alias. -/

/-- Addition of two `uint` values. -/
def uintAdd (sizeofInt : Nat) (a b : Nat) : Nat :=
  (a + b) % 2 ^ (uint sizeofInt).bitWidth

/-- Subtraction of two `uint` values `a - b` (modular, as ISO C defines
it for unsigned types). -/
def uintSub (sizeofInt : Nat) (a b : Nat) : Nat :=
  (2 ^ (uint sizeofInt).bitWidth + a - b % 2 ^ (uint sizeofInt).bitWidth)
    % 2 ^ (uint sizeofInt).bitWidth

/-- Multiplication of two `uint` values. -/
def uintMul (sizeofInt : Nat) (a b : Nat) : Nat :=
  (a * b) % 2 ^ (uint sizeofInt).bitWidth

/-! ## The export-visibility macro, token level -/

/-- Token sequence that `TTVSDK_API` expands to, as a function of the
`TTV_PLATFORM_MAC` preprocessor flag. -/
def TTVSDK_API (ttvPlatformMac : Bool) : List String :=
  if ttvPlatformMac then ["__attribute__((visibility(\"default\")))"] else []

/-- The default-visibility export attribute emitted on the Mac
platform. -/
def visibilityDefaultAttr : String := "__attribute__((visibility(\"default\")))"

/-! ## The export-visibility macro, compiled-declaration level

A compiled declaration is a symbol (carrying link/load-time metadata)
together with its runtime semantics, a state transformer.  The only
effect of the visibility attribute is on the symbol metadata. -/

/-- Link/load-time symbol metadata of a compiled declaration. -/
structure CSymbol where
  name : String
  visibilityDefault : Bool
deriving DecidableEq, Repr

/-- Compile a declaration annotated with `TTVSDK_API`: the attribute
tokens determine the symbol visibility; the runtime semantics is the
body, untouched. -/
def compileDecl {σ α : Type} (ttvPlatformMac : Bool) (name : String)
    (body : σ → σ × α) : CSymbol × (σ → σ × α) :=
  ({ name := name, visibilityDefault := ! (TTVSDK_API ttvPlatformMac).isEmpty }, body)

/-! ## The `UNUSED` macro -/

/-- Token sequence of the expansion of `UNUSED(x)`: `(void)x;` with
`x` the argument token sequence (spliced in exactly once). -/
def UNUSED_expand (x : List String) : List String :=
  "(" :: "void" :: ")" :: (x ++ [";"])

/-- A C expression as a state transformer: from a program state it
produces the next state and a value. -/
def CExpr (σ α : Type) : Type := σ → σ × α

/-- Semantics of the statement `UNUSED(x)`, i.e. `(void)x;`: evaluate
`x` once and discard its value by the cast to `void`. -/
def UNUSED {σ α : Type} (x : CExpr σ α) : CExpr σ Unit :=
  fun s => ((x s).1, ())

/-- A possibly-failing C expression (general enough to host operations
that can fail; nothing in this header can). -/
def CExprF (ε σ α : Type) : Type := σ → Except ε (σ × α)

/-- Semantics of `UNUSED(x)` over possibly-failing expressions: the
cast to `void` adds no failure of its own. -/
def UNUSEDf {ε σ α : Type} (x : CExprF ε σ α) : CExprF ε σ Unit :=
  fun s =>
    match x s with
    | Except.ok p => Except.ok (p.1, ())
    | Except.error e => Except.error e

/-- A concrete never-failing expression over `Nat` states, used to
exercise `UNUSEDf` at a concrete input: it bumps the state and returns
the old state. -/
def bumpExpr : CExprF String Nat Nat := fun s => Except.ok (s + 1, s)

/-! ## Unused-variable diagnostics

A miniature translation unit: declarations of local variables and
`(void)v;` statements (the expansion of `UNUSED(v)`).  A compiler
under strict warning settings warns about each variable that is
declared but never mentioned afterwards. -/

/-- A statement of the miniature translation unit. -/
inductive CStmt where
  | decl (v : String)
  | voidCast (v : String)
deriving DecidableEq, Repr

/-- Does statement `s` mention (read) variable `v`? -/
def CStmt.mentionsVar (s : CStmt) (v : String) : Bool :=
  match s with
  | CStmt.decl _ => false
  | CStmt.voidCast w => w == v

/-- The statement that `UNUSED(v)` expands to: `(void)v;`. -/
def UNUSED_stmt (v : String) : CStmt := CStmt.voidCast v

/-- Unused-variable warnings for a translation unit: one per variable
declared in it but mentioned by no statement of it. -/
def unusedWarnings (tu : List CStmt) : List String :=
  (tu.filterMap fun s =>
    match s with
    | CStmt.decl v => some v
    | CStmt.voidCast _ => none).filter
    (fun v => ! tu.any (fun s => s.mentionsVar v))

/-! ## Theorems -/

/-- Claim C1: for every expression `x` and state `s`, executing
`UNUSED(x)` leaves the program in exactly the state reached by
evaluating `x` alone, contributes no effect of its own, and the value
produced by `x` is the one discarded (the macro does not alter it). -/
theorem UNUSED_preserves_state {σ α : Type} (x : CExpr σ α) (s : σ) :
    (UNUSED x s).1 = (x s).1 ∧ (UNUSED x s).2 = () := by
  constructor <;> rfl

/-- Claim C2: `TTVSDK_API` expands to the default-visibility export
attribute exactly when `TTV_PLATFORM_MAC` is set, and to the empty
token sequence on every other platform. -/
theorem TTVSDK_API_expansion :
    TTVSDK_API true = [visibilityDefaultAttr] ∧ TTVSDK_API false = [] := by
  constructor <;> rfl

/-- Claim C3: `utf8char` is a single 8-bit code unit, identical to its
underlying primitive type `char` (size one byte, no padding or added
fields), and enforces no UTF-8 validation: every 8-bit byte pattern,
valid UTF-8 or not, round-trips through a `utf8char` value. -/
theorem utf8char_is_byte :
    ∀ charIsSigned : Bool,
      (utf8char charIsSigned).sizeBytes = 1 ∧
      utf8char charIsSigned = char_t charIsSigned ∧
      ∀ b : Fin 256,
        (utf8char charIsSigned).toPattern ((utf8char charIsSigned).ofPattern b.val) = b.val ∧
        (utf8char charIsSigned).inRange ((utf8char charIsSigned).ofPattern b.val) := by
  intro charIsSigned
  refine ⟨rfl, rfl, ?_⟩
  intro b
  have hb : b.val < 256 := b.isLt
  cases charIsSigned
  · simp only [utf8char, char_t, CIntType.toPattern, CIntType.ofPattern, CIntType.inRange,
      CIntType.valueMin, CIntType.valueMax, CIntType.bitWidth, CHAR_BIT]
    norm_num
    omega
  · simp only [utf8char, char_t, CIntType.toPattern, CIntType.ofPattern, CIntType.inRange,
      CIntType.valueMin, CIntType.valueMax, CIntType.bitWidth, CHAR_BIT]
    norm_num
    split <;> omega

/-- Claim C4: a value `v` is representable in the `uint` alias exactly
when `0 ≤ v < 2 ^ w`, `w` the bit width of the underlying
`unsigned int`; the type carries no further range invariant. -/
theorem uint_range (n : Nat) (v : Int) :
    (uint n).inRange v ↔ 0 ≤ v ∧ v < ((2 ^ (uint n).bitWidth : Nat) : Int) := by
  have h1 : (1 : Int) ≤ ((2 ^ (uint n).bitWidth : Nat) : Int) := by
    exact_mod_cast Nat.one_le_two_pow
  simp only [CIntType.inRange, CIntType.valueMin, CIntType.valueMax, uint, unsigned_int_t,
    Bool.false_eq_true, if_false]
  omega

/-- Claim C5: no operation of this header can fail; in particular the
`void` cast of `UNUSED` introduces no error of its own: whenever its
argument evaluates successfully, `UNUSED` succeeds. -/
theorem UNUSED_no_error {ε σ α : Type} (x : CExprF ε σ α) (s s' : σ) (v : α)
    (h : x s = Except.ok (s', v)) : UNUSEDf x s = Except.ok (s', ()) := by
  simp [UNUSEDf, h]

/-- Witness for C5 at a concrete input. -/
theorem UNUSED_no_error_witness : UNUSEDf bumpExpr 0 = Except.ok (1, ()) :=
  UNUSED_no_error bumpExpr 0 1 0 rfl

/-- Claim C6: annotating a declaration with `TTVSDK_API` does not change
its runtime semantics on any platform (the compiled body is the same
function whatever the platform flag); only the link/load-time symbol
visibility differs, default-visible exactly on the Mac platform. -/
theorem TTVSDK_API_runtime_irrelevant {σ α : Type} (name : String) (body : σ → σ × α)
    (mac mac' : Bool) :
    (compileDecl mac name body).2 = (compileDecl mac' name body).2 ∧
    (compileDecl mac name body).1.name = (compileDecl mac' name body).1.name ∧
    (compileDecl true name body).1.visibilityDefault = true ∧
    (compileDecl false name body).1.visibilityDefault = false := by
  refine ⟨rfl, rfl, ?_, ?_⟩ <;> rfl

/-- Claim C7: a translation unit that contains `UNUSED(v)` (which
expands to `(void)v;`) draws no unused-variable warning for `v` under
strict warning settings. -/
theorem unused_local_no_warning (tu : List CStmt) (v : String)
    (h : UNUSED_stmt v ∈ tu) : v ∉ unusedWarnings tu := by
  intro hv
  have hmem := List.of_mem_filter hv
  have hany : tu.any (fun s => s.mentionsVar v) = true :=
    List.any_eq_true.mpr ⟨UNUSED_stmt v, h, by simp [UNUSED_stmt, CStmt.mentionsVar]⟩
  rw [hany] at hmem
  simp at hmem

/-- Witness for C7: declaring a local `x`, never reading it, and
passing it through `UNUSED` yields zero warnings. -/
theorem unused_local_no_warning_witness :
    "x" ∉ unusedWarnings [CStmt.decl "x", UNUSED_stmt "x"] :=
  unused_local_no_warning [CStmt.decl "x", UNUSED_stmt "x"] "x" (by simp)

/-- Claim C8: `UNUSED(x)` evaluates its argument exactly once: the
effect of the argument occurs once (not zero or two times) in the
resulting state, and the expansion `(void)x;` splices the argument
token sequence in exactly once (token counts besides the fixed frame
`( void ) ;` are preserved). -/
theorem UNUSED_evaluates_once {σ α : Type} (effect : σ → σ) (value : σ → α) (s : σ) :
    (UNUSED (fun st => (effect st, value st)) s).1 = effect s ∧
    ∀ (x : List String) (t : String), t ∉ ["(", "void", ")", ";"] →
      (UNUSED_expand x).count t = x.count t := by
  refine ⟨rfl, ?_⟩
  intro x t ht
  simp only [List.mem_cons, List.not_mem_nil, or_false, not_or] at ht
  obtain ⟨h1, h2, h3, h4⟩ := ht
  simp [UNUSED_expand, List.count_cons, List.count_append, h1, h2, h3, h4]

/-- Witness for C8 at a concrete effectful expression and argument. -/
theorem UNUSED_evaluates_once_witness :
    (UNUSED (fun st => (st + 1, st)) 0).1 = 0 + 1 ∧
    (UNUSED_expand ["y"]).count "y" = (["y"] : List String).count "y" :=
  ⟨(UNUSED_evaluates_once (fun st : Nat => st + 1) (fun st => st) 0).1,
   (UNUSED_evaluates_once (fun st : Nat => st + 1) (fun st => st) 0).2 ["y"] "y" (by decide)⟩

/-- Claim C9: `utf8char` is plain `char`, whose signedness is
implementation defined; on targets where `char` is signed, every byte
pattern with the high bit set (`0x80` through `0xFF`) is stored as a
negative `utf8char` value, while on unsigned-`char` targets it is not. -/
theorem utf8char_signed_negative (b : Nat) (h1 : 128 ≤ b) (h2 : b ≤ 255) :
    (utf8char true).ofPattern b < 0 ∧ 0 ≤ (utf8char false).ofPattern b := by
  constructor
  · simp only [utf8char, char_t, CIntType.ofPattern, CIntType.bitWidth, CHAR_BIT]
    norm_num
    split <;> omega
  · simp only [utf8char, char_t, CIntType.ofPattern, CIntType.bitWidth, CHAR_BIT]
    norm_num
    omega

/-- Witness for C9 at the byte `0x80`. -/
theorem utf8char_signed_negative_witness :
    (utf8char true).ofPattern 128 < 0 ∧ 0 ≤ (utf8char false).ofPattern 128 :=
  utf8char_signed_negative 128 (by decide) (by decide)

/-- Claim C10: arithmetic on `uint` is modular: for operands below
`2 ^ w` (`w` the bit width of `unsigned int`), addition, subtraction
and multiplication always produce a result below `2 ^ w` (no undefined
behavior, no error) equal to the mathematical result reduced modulo
`2 ^ w`, so overflow wraps around. -/
theorem uint_arith_modular (n a b : Nat)
    (ha : a < 2 ^ (uint n).bitWidth) (hb : b < 2 ^ (uint n).bitWidth) :
    uintAdd n a b < 2 ^ (uint n).bitWidth ∧
    uintSub n a b < 2 ^ (uint n).bitWidth ∧
    uintMul n a b < 2 ^ (uint n).bitWidth ∧
    ((uintAdd n a b : Nat) : Int) = ((a : Int) + (b : Int)) % ((2 ^ (uint n).bitWidth : Nat) : Int) ∧
    ((uintSub n a b : Nat) : Int) = ((a : Int) - (b : Int)) % ((2 ^ (uint n).bitWidth : Nat) : Int) ∧
    ((uintMul n a b : Nat) : Int) = ((a : Int) * (b : Int)) % ((2 ^ (uint n).bitWidth : Nat) : Int) := by
  have hM : 0 < 2 ^ (uint n).bitWidth := Nat.pos_pow_of_pos _ (by norm_num)
  have hbM : b % 2 ^ (uint n).bitWidth = b := Nat.mod_eq_of_lt hb
  refine ⟨Nat.mod_lt _ hM, Nat.mod_lt _ hM, Nat.mod_lt _ hM, ?_, ?_, ?_⟩
  · rw [uintAdd, Int.natCast_mod]
    push_cast
    rfl
  · rw [uintSub, hbM, Int.natCast_mod]
    have hle : b ≤ 2 ^ (uint n).bitWidth + a :=
      le_trans (Nat.le_of_lt hb) (Nat.le_add_right _ _)
    rw [Nat.cast_sub hle]
    push_cast
    rw [show ((2 : Int) ^ (uint n).bitWidth + (a : Int) - (b : Int))
        = ((a : Int) - (b : Int)) + 2 ^ (uint n).bitWidth by ring]
    rw [Int.add_emod, Int.emod_self, add_zero, Int.emod_emod_of_dvd _ dvd_rfl]
  · rw [uintMul, Int.natCast_mod]
    push_cast
    rfl

/-- Witness for C10 on an 8-bit word: `255 + 1` wraps to `0`. -/
theorem uint_arith_modular_witness :
    (255 : Nat) < 2 ^ (uint 1).bitWidth ∧
    ((uintAdd 1 255 1 : Nat) : Int)
      = ((255 : Int) + (1 : Int)) % ((2 ^ (uint 1).bitWidth : Nat) : Int) :=
  ⟨by decide, (uint_arith_modular 1 255 1 (by decide) (by decide)).2.2.2.1⟩
